import Mathlib

/-
Verification of the reasoning-trace normalization layer of the chatbot-next
repository.

The embedding below mirrors, value for value:
  * `src/app/api/chat/route.ts` — `hasModelProperty`, the per-message lambda of
    `filterIncompatibleReasoning` (here named `filterMessage`), the list-level
    `filterIncompatibleReasoning`, and the order of operations inside the
    `createDataStreamResponse` `execute` callback of `POST`;
  * `src/app/api/chat/models.ts` — `modelDefs` and `getProviderOptions`,
    with JavaScript property-access-on-undefined failures made explicit as
    an `Except` error;
  * the schema-translation functions `getOriginalProvider`,
    `extractTextFromDetails`, `translateReasoningPart` and `translateMessage`
    from the repository's design documents (the "Immediate Schema Mapping Fix"
    section and `tasks/minimal-reasoning-compatibility.md`), which give the
    repository's only implementation of cross-provider reasoning translation;
  * the spec's factored reasoning-part codec (`Codec.decode` / `Codec.encode`),
    which the repository only contains in fused form — modelled from the
    spec's own words where so marked.

JavaScript semantics that matter here are made explicit: `a || b` on a
possibly-undefined string is `jsOr`, `model.split(':')` is `jsSplit`,
optional-chaining field access is `Option.bind`, and a `TypeError` thrown by
reading a property of `undefined` is an `Except.error`.
-/

/-- The two provider families of `models.ts` (`export type Provider = keyof typeof modelDefs`). -/
inductive Provider
  | openai
  | anthropic
deriving DecidableEq

/-- The wire string of a provider tag, as used in `"<provider>:<modelClass>"` identifiers. -/
def Provider.str : Provider → String
  | Provider.openai => "openai"
  | Provider.anthropic => "anthropic"

/-- Message roles of the `ai` SDK's `UIMessage`. -/
inductive Role
  | user
  | assistant
  | system
  | data
deriving DecidableEq

/-- A message annotation: an unknown JSON value that either is an object with a
string `model` property (the provenance side-channel written by the route) or
anything else. -/
inductive Annot
  | withModel (model : String)
  | other
deriving DecidableEq

/-- One entry of an OpenAI-style `details` array of a reasoning part:
`{type, text?, data?, signature?}`.  Fields that JavaScript may leave
`undefined` are `Option`s. -/
structure Detail where
  type : String
  text : Option String
  data : Option String
  signature : Option String
deriving DecidableEq

/-- An Anthropic-style `thinking` object `{signature, content}`.  Both fields
are `Option`s because the translation code reads them defensively
(`part.thinking?.content || ""`). -/
structure Thinking where
  signature : Option String
  content : Option String
deriving DecidableEq

/-- A `UIMessage` part.  A reasoning part carries the union of both providers'
fields (`reasoning`/`details` for OpenAI, `thinking` for Anthropic), each
possibly absent; all other part types are opaque to the translation layer and
are kept as tagged payloads. -/
inductive MsgPart
  | reasoning (reasoning : Option String) (details : Option (List Detail)) (thinking : Option Thinking)
  | text (text : String)
  | toolInvocation (toolName : String) (payload : String)
  | stepStart
  | other (tag : String) (payload : String)
deriving DecidableEq

/-- `part.type === "reasoning"`. -/
def MsgPart.isReasoning : MsgPart → Bool
  | MsgPart.reasoning _ _ _ => true
  | _ => false

/-- The `ai` SDK `UIMessage` as the route uses it: id, role, ordered parts and
the optional `annotations` array. -/
structure UIMessage where
  id : String
  role : Role
  parts : List MsgPart
  annotations : Option (List Annot)
deriving DecidableEq

/-- JavaScript `a || b` where `a` is a string-or-undefined expression: yields
`b` when `a` is `undefined`/`null` or the empty string (both falsy). -/
def jsOr : Option String → String → String
  | none, b => b
  | some s, b => if s = "" then b else s

/-- JavaScript `s.split(sep)` for a one-character separator: always returns a
non-empty list; `"".split(sep) = [""]` and a trailing separator yields a
trailing empty string. -/
def jsSplit (s : String) (sep : Char) : List String :=
  (s.toList.foldr
    (fun c acc =>
      match acc with
      | [] => if c = sep then [[], []] else [[c]]
      | h :: t => if c = sep then [] :: (h :: t) else (c :: h) :: t)
    [[]]).map (fun l => String.mk l)

/-- `route.ts` lines 7–14: type guard for an annotation object carrying a
string `model` property. -/
def hasModelProperty : Annot → Bool
  | Annot.withModel _ => true
  | Annot.other => false

/-- Design-doc `getOriginalProvider`: find the first model annotation and take
the provider segment `modelAnnotation.model.split(':')[0]`; `null` when the
message has no model annotation. -/
def getOriginalProvider (message : UIMessage) : Option String :=
  match (message.annotations.getD []).find? hasModelProperty with
  | some (Annot.withModel m) => some ((jsSplit m ':').headD "")
  | _ => none

/-- Design-doc `extractTextFromDetails`: `""` when `details` is undefined, else
`details.map(detail => detail.text || detail.data || "").join("\n")`. -/
def extractTextFromDetails : Option (List Detail) → String
  | none => ""
  | some ds => String.intercalate "\n" (ds.map fun det => jsOr det.text (jsOr det.data ""))

/-- Design-doc `translateReasoningPart(part, targetProvider)`: non-reasoning
parts are returned unchanged; a reasoning part is rebuilt in the target
provider's schema.  For Anthropic the signature is
`part.details?.[0]?.signature || "translated-from-openai"` and the content is
`part.reasoning || extractTextFromDetails(part.details)`; for OpenAI the
summary and single text detail are `part.thinking?.content || ""` and the
detail signature is `part.thinking?.signature || "translated-from-anthropic"`. -/
def translateReasoningPart (part : MsgPart) (targetProvider : Provider) : MsgPart :=
  match part with
  | MsgPart.reasoning r d t =>
    match targetProvider with
    | Provider.anthropic =>
      MsgPart.reasoning none none (some
        { signature := some (jsOr ((d.bind List.head?).bind Detail.signature) "translated-from-openai")
          content := some (jsOr r (extractTextFromDetails d)) })
    | Provider.openai =>
      MsgPart.reasoning
        (some (jsOr (t.bind Thinking.content) ""))
        (some [{ type := "text"
                 text := some (jsOr (t.bind Thinking.content) "")
                 data := none
                 signature := some (jsOr (t.bind Thinking.signature) "translated-from-anthropic") }])
        none
  | p => p

/-- Design-doc `translateMessage(message, targetProvider)`: identity when the
source provider is undeterminable (`!sourceProvider`, which in JavaScript also
catches the empty string) or already equals the target; otherwise every part
is mapped through `translateReasoningPart`. -/
def translateMessage (message : UIMessage) (targetProvider : Provider) : UIMessage :=
  match getOriginalProvider message with
  | none => message
  | some s =>
    if s = "" ∨ s = targetProvider.str then message
    else { message with parts := message.parts.map (translateReasoningPart · targetProvider) }

/-- The part-level callback of `message.parts.filter` in
`filterIncompatibleReasoning` (`route.ts` lines 25–43), which closes over the
message and the target provider: a reasoning part is kept only when the
message's model annotation names the target provider (`false` when there is no
model annotation), and every non-reasoning part is kept. -/
def keepPart (targetProvider : Provider) (message : UIMessage) (part : MsgPart) : Bool :=
  if part.isReasoning then
    match (message.annotations.getD []).find? hasModelProperty with
    | some (Annot.withModel m) => ((jsSplit m ':').headD "") == targetProvider.str
    | _ => false
  else true

/-- The per-message lambda of `filterIncompatibleReasoning` (`route.ts` lines
18–49): user messages are returned as-is; any other message gets its parts
filtered through `keepPart`. -/
def filterMessage (targetProvider : Provider) (message : UIMessage) : UIMessage :=
  if message.role = Role.user then
    message
  else
    { message with parts := message.parts.filter (keepPart targetProvider message) }

/-- `route.ts` lines 17–50: `filterIncompatibleReasoning(messages, targetProvider)`
maps the per-message filter over the history. -/
def filterIncompatibleReasoning (messages : List UIMessage) (targetProvider : Provider) : List UIMessage :=
  messages.map (filterMessage targetProvider)

/-- Request-option payloads of `models.ts`: OpenAI's reasoning options and
Anthropic's thinking budget. -/
inductive ProviderOptionsVal
  | openaiReasoning (reasoningEffort : String) (reasoningSummary : String) (parallelToolCalls : Bool)
  | anthropicThinking (budgetTokens : Nat)
deriving DecidableEq

/-- One model entry of `modelDefs`: its wire name and whether it is a
reasoning model. -/
structure ModelConfig where
  name : String
  reasoning : Bool
deriving DecidableEq

/-- One provider entry of `modelDefs`: its reasoning request options and its
`models` object with the two classes `default` and `smart`. -/
structure ProviderConfig where
  reasoningOptions : ProviderOptionsVal
  defaultModel : ModelConfig
  smartModel : ModelConfig
deriving DecidableEq

/-- JavaScript bracket lookup `providerConfig.models[modelClass]`, where the
class segment may itself be `undefined` (a model id with no `:`); any unknown
key yields `undefined`. -/
def ProviderConfig.modelsLookup (pc : ProviderConfig) (modelClass : Option String) : Option ModelConfig :=
  if modelClass = some "default" then some pc.defaultModel
  else if modelClass = some "smart" then some pc.smartModel
  else none

/-- The static `modelDefs` table of `models.ts` as a lookup on the provider
segment; unknown providers yield `undefined`. -/
def modelDefs : String → Option ProviderConfig := fun provider =>
  if provider = "openai" then
    some { reasoningOptions := ProviderOptionsVal.openaiReasoning "high" "detailed" true
           defaultModel := { name := "gpt-4o", reasoning := false }
           smartModel := { name := "o3", reasoning := true } }
  else if provider = "anthropic" then
    some { reasoningOptions := ProviderOptionsVal.anthropicThinking 12000
           defaultModel := { name := "claude-3-5-sonnet-20240620", reasoning := false }
           smartModel := { name := "claude-3-7-sonnet-20250219", reasoning := true } }
  else none

/-- How resolution of a model identifier can fail.  The source never defines a
`ConfigurationError`; what actually happens on an unknown segment is a
JavaScript `TypeError` from reading a property of `undefined`
(`providerConfig.models` resp. `modelConfig.reasoning`).  The
`configurationError` constructor exists only so the spec's claimed distinct
error is expressible. -/
inductive ResolveError
  | typeError
  | configurationError
deriving DecidableEq

/-- `models.ts` lines 86–99, `getProviderOptions(model)`: split the identifier,
look up provider and class, and return `{[provider]: reasoningOptions}` for
reasoning models, `undefined` otherwise.  Each property access that JavaScript
would perform on `undefined` is an explicit `TypeError`. -/
def getProviderOptions (model : String) : Except ResolveError (Option (String × ProviderOptionsVal)) :=
  match modelDefs ((jsSplit model ':').headD "") with
  | none => Except.error ResolveError.typeError
  | some providerConfig =>
    match providerConfig.modelsLookup ((jsSplit model ':')[1]?) with
    | none => Except.error ResolveError.typeError
    | some modelConfig =>
      Except.ok (if modelConfig.reasoning
        then some ((jsSplit model ':').headD "", providerConfig.reasoningOptions)
        else none)

/-- The externally observable operations of the `execute` callback of `POST`
(`route.ts` lines 73–97), in program order: the model annotation is written to
the data stream, then `streamText` starts the model call, then the result is
merged into the stream; `onFinish` fires when the model call completes. -/
inductive RouteStep
  | writeModelAnnot
  | streamTextStart
  | mergeIntoDataStream
  | streamFinish
deriving DecidableEq, BEq

/-- The order of `RouteStep`s as written in `route.ts` lines 73–97. -/
def executeSteps : List RouteStep :=
  [RouteStep.writeModelAnnot, RouteStep.streamTextStart,
   RouteStep.mergeIntoDataStream, RouteStep.streamFinish]

/-- Modelled from the spec: segment kinds of a canonical reasoning trace
(§3 `CanonicalReasoningTrace`); the factored codec is absent from the source,
which only ships it fused inside `translateReasoningPart`. -/
inductive SegKind
  | text
  | redacted
deriving DecidableEq

/-- Modelled from the spec: one segment of a canonical reasoning trace,
`{kind, text?, opaqueData?, signature?}` (§3). -/
structure Segment where
  kind : SegKind
  text : Option String
  opaqueData : Option String
  signature : Option String
deriving DecidableEq

/-- Modelled from the spec: the provider-independent pivot shape
`{content, segments}` (§3). -/
structure CanonicalReasoningTrace where
  content : String
  segments : List Segment
deriving DecidableEq

/-- Modelled from the spec: `decode(providerTag, rawReasoningPart)` (§4.2).
For the detail-array provider the content is the summary field if non-empty,
else the newline join of segment texts, and each detail maps to a text or
redacted segment; for the signature-mandatory provider the content is
`thinking.content` with a single signed text segment; unknown or malformed
shapes decode to the empty trace. -/
def Codec.decode (p : Provider) (part : MsgPart) : CanonicalReasoningTrace :=
  match p, part with
  | Provider.openai, MsgPart.reasoning r d _ =>
    let ds := d.getD []
    { content :=
        match r with
        | some s => if s = "" then String.intercalate "\n" (ds.map fun det => det.text.getD "") else s
        | none => String.intercalate "\n" (ds.map fun det => det.text.getD "")
      segments := ds.map fun det =>
        if det.type = "redacted" then
          { kind := SegKind.redacted, text := none, opaqueData := det.data, signature := none }
        else
          { kind := SegKind.text, text := det.text, opaqueData := none, signature := det.signature } }
  | Provider.anthropic, MsgPart.reasoning _ _ t =>
    match t with
    | some th =>
      match th.content with
      | some s =>
        { content := s
          segments := [{ kind := SegKind.text, text := some s, opaqueData := none, signature := th.signature }] }
      | none => { content := "", segments := [] }
    | none => { content := "", segments := [] }
  | _, _ => { content := "", segments := [] }

/-- Modelled from the spec: `encode(targetProviderTag, canonical)` (§4.2).
For the detail-array provider: a single text detail whose text is the content,
with the carried signature preserved when the segments have one and omitted
otherwise; for the signature-mandatory provider: a `thinking` object whose
signature is the carried signature or the fixed sentinel. -/
def Codec.encode (p : Provider) (c : CanonicalReasoningTrace) : MsgPart :=
  match p with
  | Provider.openai =>
    MsgPart.reasoning (some c.content)
      (some [{ type := "text"
               text := some c.content
               data := none
               signature := c.segments.findSome? Segment.signature }])
      none
  | Provider.anthropic =>
    MsgPart.reasoning none none (some
      { signature := some ((c.segments.findSome? Segment.signature).getD "translated-from-openai")
        content := some c.content })

/-! ### Helper lemmas -/

theorem jsOr_none (b : String) : jsOr none b = b := rfl

theorem jsOr_some_empty (b : String) : jsOr (some "") b = b := by
  simp [jsOr]

theorem jsOr_some_of_ne (s b : String) (hs : s ≠ "") : jsOr (some s) b = s := by
  simp [jsOr, hs]

theorem jsOr_ne_empty (a : Option String) (b : String) (hb : b ≠ "") : jsOr a b ≠ "" := by
  cases a with
  | none => exact hb
  | some s =>
    by_cases hs : s = ""
    · subst hs; rw [jsOr_some_empty]; exact hb
    · rw [jsOr_some_of_ne s b hs]; exact hs

theorem intercalate_singleton (s x : String) : String.intercalate s [x] = x := rfl

/-! ### Claim theorems -/

/-- C3 (confirmed, spec-modelled codec): for every canonical reasoning trace
`c` and each of the two providers `P`, `decode P (encode P c)` has exactly the
content `c.content`. -/
theorem c3_theorem : ∀ (P : Provider) (c : CanonicalReasoningTrace),
    (Codec.decode P (Codec.encode P c)).content = c.content := by
  intro P c
  cases P with
  | openai =>
    by_cases h : c.content = ""
    · simp [Codec.encode, Codec.decode, h, intercalate_singleton]
    · simp [Codec.encode, Codec.decode, h]
  | anthropic => rfl

/-- C6 counterexample: in the order of operations of the live route's
`execute` callback, the model annotation is not written after the model call
finishes — so the claim that provenance is attached only after completion
fails on the code. -/
theorem c6_counterexample :
    ¬ (executeSteps.indexOf RouteStep.streamFinish < executeSteps.indexOf RouteStep.writeModelAnnot) := by
  decide

/-- C6 (amended): the live route writes the `{model}` annotation to the data
stream at the start of the `execute` callback, before `streamText` starts the
model call and hence before the call completes: the annotation is attached to
the in-flight assistant message during the request. -/
theorem c6_theorem :
    executeSteps.indexOf RouteStep.writeModelAnnot < executeSteps.indexOf RouteStep.streamTextStart
    ∧ executeSteps.indexOf RouteStep.writeModelAnnot < executeSteps.indexOf RouteStep.streamFinish := by
  decide

/-- C7 (confirmed): the translation total functions never fail on malformed
reasoning payloads; in particular a reasoning part with `details` undefined
and no `reasoning` field (and arbitrary `thinking`) decodes to empty content
when re-encoded for Anthropic, and the fully absent payload yields empty
content for OpenAI as well. -/
theorem c7_theorem : ∀ (t : Option Thinking),
    translateReasoningPart (MsgPart.reasoning none none t) Provider.anthropic
      = MsgPart.reasoning none none
          (some { signature := some "translated-from-openai", content := some "" })
    ∧ translateReasoningPart (MsgPart.reasoning none none none) Provider.openai
      = MsgPart.reasoning (some "")
          (some [{ type := "text", text := some "", data := none,
                   signature := some "translated-from-anthropic" }]) none := by
  intro t
  exact ⟨rfl, rfl⟩

/-- C1 counterexample: on a concrete assistant message with OpenAI provenance
and one reasoning part, preparing the history for Anthropic removes the
reasoning part entirely instead of replacing it in place with its
re-encoding. -/
theorem c1_counterexample :
    filterIncompatibleReasoning
        [{ id := "m1", role := Role.assistant,
           parts := [MsgPart.reasoning (some "think")
                       (some [{ type := "text", text := some "think", data := none, signature := none }]) none,
                     MsgPart.text "hi"],
           annotations := some [Annot.withModel "openai:smart"] }]
        Provider.anthropic
      = [{ id := "m1", role := Role.assistant, parts := [MsgPart.text "hi"],
           annotations := some [Annot.withModel "openai:smart"] }]
    ∧ filterIncompatibleReasoning
        [{ id := "m1", role := Role.assistant,
           parts := [MsgPart.reasoning (some "think")
                       (some [{ type := "text", text := some "think", data := none, signature := none }]) none,
                     MsgPart.text "hi"],
           annotations := some [Annot.withModel "openai:smart"] }]
        Provider.anthropic
      ≠ [{ id := "m1", role := Role.assistant,
           parts := [translateReasoningPart
                       (MsgPart.reasoning (some "think")
                         (some [{ type := "text", text := some "think", data := none, signature := none }]) none)
                       Provider.anthropic,
                     MsgPart.text "hi"],
           annotations := some [Annot.withModel "openai:smart"] }] := by
  exact ⟨by decide, by decide⟩

/-- C2 counterexample: a reasoning part whose trace carries original
signatures (an empty one in the first detail and `"abc"` in the second) is
encoded for Anthropic with the sentinel signature, not with a carried
original signature. -/
theorem c2_counterexample :
    translateReasoningPart
        (MsgPart.reasoning (some "why")
          (some [{ type := "text", text := some "a", data := none, signature := some "" },
                 { type := "text", text := some "b", data := none, signature := some "abc" }])
          none)
        Provider.anthropic
      = MsgPart.reasoning none none
          (some { signature := some "translated-from-openai", content := some "why" })
    ∧ translateReasoningPart
        (MsgPart.reasoning (some "why")
          (some [{ type := "text", text := some "a", data := none, signature := some "" },
                 { type := "text", text := some "b", data := none, signature := some "abc" }])
          none)
        Provider.anthropic
      ≠ MsgPart.reasoning none none
          (some { signature := some "abc", content := some "why" })
    ∧ translateReasoningPart
        (MsgPart.reasoning (some "why")
          (some [{ type := "text", text := some "a", data := none, signature := some "" },
                 { type := "text", text := some "b", data := none, signature := some "abc" }])
          none)
        Provider.anthropic
      ≠ MsgPart.reasoning none none
          (some { signature := some "", content := some "why" }) := by
  exact ⟨by decide, by decide, by decide⟩

/-- C4 counterexample: an assistant message whose provenance cannot be
determined (no model annotation) has its reasoning part removed by the live
filter, not passed through verbatim. -/
theorem c4_counterexample :
    filterMessage Provider.openai
        { id := "d1", role := Role.assistant,
          parts := [MsgPart.reasoning (some "th") none none, MsgPart.text "t"],
          annotations := none }
      = { id := "d1", role := Role.assistant, parts := [MsgPart.text "t"], annotations := none }
    ∧ filterMessage Provider.openai
        { id := "d1", role := Role.assistant,
          parts := [MsgPart.reasoning (some "th") none none, MsgPart.text "t"],
          annotations := none }
      ≠ { id := "d1", role := Role.assistant,
          parts := [MsgPart.reasoning (some "th") none none, MsgPart.text "t"],
          annotations := none } := by
  exact ⟨by decide, by decide⟩

/-- C5 counterexample: resolving the unknown-provider identifier
`"foo:default"` fails with the JavaScript `TypeError` of reading a property of
`undefined`, which is not the distinct `ConfigurationError` the claim
requires. -/
theorem c5_counterexample :
    getProviderOptions "foo:default" = Except.error ResolveError.typeError
    ∧ ResolveError.typeError ≠ ResolveError.configurationError := by
  exact ⟨rfl, by decide⟩

/-- C8 counterexample: encoding an Anthropic reasoning part that carries no
signature for OpenAI fills the detail's signature with the sentinel
`"translated-from-anthropic"` instead of omitting the field. -/
theorem c8_counterexample :
    translateReasoningPart
        (MsgPart.reasoning none none (some { signature := none, content := some "analyzing" }))
        Provider.openai
      = MsgPart.reasoning (some "analyzing")
          (some [{ type := "text", text := some "analyzing", data := none,
                   signature := some "translated-from-anthropic" }]) none
    ∧ translateReasoningPart
        (MsgPart.reasoning none none (some { signature := none, content := some "analyzing" }))
        Provider.openai
      ≠ MsgPart.reasoning (some "analyzing")
          (some [{ type := "text", text := some "analyzing", data := none,
                   signature := none }]) none := by
  exact ⟨by decide, by decide⟩

/-- C1 (amended): in the prepared history, a non-user message whose annotated
provenance differs from the target provider appears with every reasoning part
removed — not replaced by its re-encoding — while every part of any other
type passes through unmodified and in its original order. -/
theorem c1_theorem : ∀ (msgs : List UIMessage) (target : Provider) (i : Nat) (m : UIMessage) (s : String),
    msgs[i]? = some m →
    m.role ≠ Role.user →
    getOriginalProvider m = some s →
    s ≠ target.str →
    (filterIncompatibleReasoning msgs target)[i]?
      = some { m with parts := m.parts.filter (fun p => ! p.isReasoning) } := by
  intro msgs target i m s hget hrole hgop hne
  unfold filterIncompatibleReasoning
  rw [List.getElem?_map, hget, Option.map_some']
  have hmsg : filterMessage target m = { m with parts := m.parts.filter (fun p => ! p.isReasoning) } := by
    unfold filterMessage
    rw [if_neg hrole]
    have hfilter : m.parts.filter (keepPart target m) = m.parts.filter (fun p => ! p.isReasoning) := by
      apply List.filter_congr
      intro a _
      cases a with
      | reasoning r d t =>
        unfold getOriginalProvider at hgop
        rcases hfind : (m.annotations.getD []).find? hasModelProperty with _ | an
        · rw [hfind] at hgop; exact absurd hgop (by simp)
        · cases an with
          | withModel mm =>
            rw [hfind] at hgop
            have h2 : (jsSplit mm ':').head?.getD "" = s := by simpa using hgop
            simp [keepPart, MsgPart.isReasoning, hfind, h2, beq_eq_false_iff_ne, hne]
          | other => rw [hfind] at hgop; exact absurd hgop (by simp)
      | text t => simp [keepPart, MsgPart.isReasoning]
      | toolInvocation a b => simp [keepPart, MsgPart.isReasoning]
      | stepStart => simp [keepPart, MsgPart.isReasoning]
      | other a b => simp [keepPart, MsgPart.isReasoning]
    rw [hfilter]
  rw [hmsg]

/-- C1 witness: the amended theorem applied to a concrete one-message history
with OpenAI provenance and target Anthropic. -/
theorem c1_witness :
    (filterIncompatibleReasoning
        [{ id := "m1", role := Role.assistant,
           parts := [MsgPart.reasoning (some "think")
                       (some [{ type := "text", text := some "think", data := none, signature := none }]) none,
                     MsgPart.text "hi"],
           annotations := some [Annot.withModel "openai:smart"] }]
        Provider.anthropic)[0]?
      = some { id := "m1", role := Role.assistant,
               parts := [MsgPart.reasoning (some "think")
                           (some [{ type := "text", text := some "think", data := none, signature := none }]) none,
                         MsgPart.text "hi"].filter (fun p => ! p.isReasoning),
               annotations := some [Annot.withModel "openai:smart"] } :=
  c1_theorem _ Provider.anthropic 0
    { id := "m1", role := Role.assistant,
      parts := [MsgPart.reasoning (some "think")
                  (some [{ type := "text", text := some "think", data := none, signature := none }]) none,
                MsgPart.text "hi"],
      annotations := some [Annot.withModel "openai:smart"] }
    "openai" rfl (by decide) (by decide) (by decide)

/-- C2 (amended): encoding any reasoning part for the signature-mandatory
provider always produces a `thinking` payload whose signature field is present
and non-empty; it is the first detail's signature when that one is present and
non-empty, and the fixed sentinel `"translated-from-openai"` otherwise. -/
theorem c2_theorem : ∀ (r : Option String) (d : Option (List Detail)) (t : Option Thinking),
    ∃ sg ct,
      translateReasoningPart (MsgPart.reasoning r d t) Provider.anthropic
        = MsgPart.reasoning none none (some { signature := some sg, content := some ct })
      ∧ sg ≠ ""
      ∧ (∀ s0, (d.bind List.head?).bind Detail.signature = some s0 → s0 ≠ "" → sg = s0)
      ∧ ((d.bind List.head?).bind Detail.signature = none
          ∨ (d.bind List.head?).bind Detail.signature = some "" → sg = "translated-from-openai") := by
  intro r d t
  refine ⟨jsOr ((d.bind List.head?).bind Detail.signature) "translated-from-openai",
          jsOr r (extractTextFromDetails d), rfl, jsOr_ne_empty _ _ (by decide), ?_, ?_⟩
  · intro s0 h0 hne
    rw [h0, jsOr_some_of_ne s0 _ hne]
  · rintro (h | h)
    · rw [h, jsOr_none]
    · rw [h, jsOr_some_empty]

/-- C2 witness: the amended theorem applied to a concrete signatureless
OpenAI-style reasoning part. -/
theorem c2_witness :
    ∃ sg ct,
      translateReasoningPart (MsgPart.reasoning (some "deep") none none) Provider.anthropic
        = MsgPart.reasoning none none (some { signature := some sg, content := some ct })
      ∧ sg ≠ ""
      ∧ (∀ s0, ((none : Option (List Detail)).bind List.head?).bind Detail.signature = some s0 → s0 ≠ "" → sg = s0)
      ∧ (((none : Option (List Detail)).bind List.head?).bind Detail.signature = none
          ∨ ((none : Option (List Detail)).bind List.head?).bind Detail.signature = some ""
          → sg = "translated-from-openai") :=
  c2_theorem (some "deep") none none

/-- C4 (amended): for a non-user message whose provenance cannot be determined
(no model annotation), the live filter removes the message's reasoning parts
(rather than passing them through verbatim), keeping all other parts
unmodified and in order. -/
theorem c4_theorem : ∀ (m : UIMessage) (target : Provider),
    m.role ≠ Role.user →
    (m.annotations.getD []).find? hasModelProperty = none →
    filterMessage target m = { m with parts := m.parts.filter (fun p => ! p.isReasoning) } := by
  intro m target hrole hfind
  unfold filterMessage
  rw [if_neg hrole]
  have hfilter : m.parts.filter (keepPart target m) = m.parts.filter (fun p => ! p.isReasoning) := by
    apply List.filter_congr
    intro a _
    cases a <;> simp [keepPart, MsgPart.isReasoning, hfind]
  rw [hfilter]

/-- C4 witness: the amended theorem applied to a concrete assistant message
whose annotations array exists but has no model property. -/
theorem c4_witness :
    filterMessage Provider.openai
        { id := "d2", role := Role.assistant,
          parts := [MsgPart.reasoning (some "th") none none, MsgPart.text "t"],
          annotations := some [Annot.other] }
      = { id := "d2", role := Role.assistant,
          parts := [MsgPart.reasoning (some "th") none none, MsgPart.text "t"].filter
                     (fun p => ! p.isReasoning),
          annotations := some [Annot.other] } :=
  c4_theorem
    { id := "d2", role := Role.assistant,
      parts := [MsgPart.reasoning (some "th") none none, MsgPart.text "t"],
      annotations := some [Annot.other] }
    Provider.openai (by decide) (by decide)

/-- C5 (amended): resolving a model identifier whose provider segment or
model-class segment is not in the static table fails, but with the JavaScript
`TypeError` of reading a property of `undefined` — not with a distinct
`ConfigurationError`. -/
theorem c5_theorem : ∀ (model : String),
    (modelDefs ((jsSplit model ':').headD "") = none
      ∨ ∃ pc, modelDefs ((jsSplit model ':').headD "") = some pc
          ∧ pc.modelsLookup ((jsSplit model ':')[1]?) = none) →
    getProviderOptions model = Except.error ResolveError.typeError := by
  intro model h
  rcases h with h | ⟨pc, hpc, hml⟩
  · unfold getProviderOptions
    rw [h]
  · unfold getProviderOptions
    rw [hpc]
    show (match pc.modelsLookup ((jsSplit model ':')[1]?) with
          | none => Except.error ResolveError.typeError
          | some modelConfig =>
            Except.ok (if modelConfig.reasoning
              then some ((jsSplit model ':').headD "", pc.reasoningOptions)
              else none))
        = Except.error ResolveError.typeError
    rw [hml]

/-- C5 witness: the amended theorem applied to the unknown model class
`"openai:turbo"`. -/
theorem c5_witness : getProviderOptions "openai:turbo" = Except.error ResolveError.typeError :=
  c5_theorem "openai:turbo"
    (Or.inr ⟨{ reasoningOptions := ProviderOptionsVal.openaiReasoning "high" "detailed" true,
               defaultModel := { name := "gpt-4o", reasoning := false },
               smartModel := { name := "o3", reasoning := true } },
             by decide, by decide⟩)

/-- C8 (amended): encoding any reasoning part for the detail-array provider
produces a summary and a single text detail both equal to the carried content
(`thinking?.content || ""`), and a detail signature that is always present and
non-empty: the original `thinking` signature when present and non-empty, the
sentinel `"translated-from-anthropic"` otherwise (never omitted). -/
theorem c8_theorem : ∀ (r : Option String) (d : Option (List Detail)) (t : Option Thinking),
    ∃ ct sg,
      translateReasoningPart (MsgPart.reasoning r d t) Provider.openai
        = MsgPart.reasoning (some ct)
            (some [{ type := "text", text := some ct, data := none, signature := some sg }]) none
      ∧ ct = jsOr (t.bind Thinking.content) ""
      ∧ sg ≠ ""
      ∧ (∀ s0, t.bind Thinking.signature = some s0 → s0 ≠ "" → sg = s0)
      ∧ (t.bind Thinking.signature = none ∨ t.bind Thinking.signature = some ""
          → sg = "translated-from-anthropic") := by
  intro r d t
  refine ⟨jsOr (t.bind Thinking.content) "",
          jsOr (t.bind Thinking.signature) "translated-from-anthropic",
          rfl, rfl, jsOr_ne_empty _ _ (by decide), ?_, ?_⟩
  · intro s0 h0 hne
    rw [h0, jsOr_some_of_ne s0 _ hne]
  · rintro (h | h)
    · rw [h, jsOr_none]
    · rw [h, jsOr_some_empty]

/-- C8 witness: the amended theorem applied to the Scenario-B payload
`{thinking: {signature: "abc123", content: "analyzing"}}`. -/
theorem c8_witness :
    ∃ ct sg,
      translateReasoningPart
          (MsgPart.reasoning none none (some { signature := some "abc123", content := some "analyzing" }))
          Provider.openai
        = MsgPart.reasoning (some ct)
            (some [{ type := "text", text := some ct, data := none, signature := some sg }]) none
      ∧ ct = jsOr ((some { signature := some "abc123", content := some "analyzing" } : Option Thinking).bind Thinking.content) ""
      ∧ sg ≠ ""
      ∧ (∀ s0, (some { signature := some "abc123", content := some "analyzing" } : Option Thinking).bind Thinking.signature = some s0 → s0 ≠ "" → sg = s0)
      ∧ ((some { signature := some "abc123", content := some "analyzing" } : Option Thinking).bind Thinking.signature = none
          ∨ (some { signature := some "abc123", content := some "analyzing" } : Option Thinking).bind Thinking.signature = some ""
          → sg = "translated-from-anthropic") :=
  c8_theorem none none (some { signature := some "abc123", content := some "analyzing" })

/-- C9 (confirmed): when a message's annotated provenance equals the target
provider, both the live filter and the design-doc translator return the
message unchanged. -/
theorem c9_theorem : ∀ (m : UIMessage) (p : Provider),
    getOriginalProvider m = some p.str →
    filterMessage p m = m ∧ translateMessage m p = m := by
  intro m p h
  constructor
  · unfold filterMessage
    by_cases hr : m.role = Role.user
    · rw [if_pos hr]
    · rw [if_neg hr]
      have hfilter : m.parts.filter (keepPart p m) = m.parts := by
        rw [List.filter_eq_self]
        intro a _
        cases a with
        | reasoning r d t =>
          unfold getOriginalProvider at h
          rcases hfind : (m.annotations.getD []).find? hasModelProperty with _ | an
          · rw [hfind] at h; exact absurd h (by simp)
          · cases an with
            | withModel mm =>
              rw [hfind] at h
              have h2 : (jsSplit mm ':').head?.getD "" = p.str := by simpa using h
              simp [keepPart, MsgPart.isReasoning, hfind, h2]
            | other => rw [hfind] at h; exact absurd h (by simp)
        | text t => simp [keepPart, MsgPart.isReasoning]
        | toolInvocation a b => simp [keepPart, MsgPart.isReasoning]
        | stepStart => simp [keepPart, MsgPart.isReasoning]
        | other a b => simp [keepPart, MsgPart.isReasoning]
      rw [hfilter]
  · unfold translateMessage
    rw [h]
    exact if_pos (Or.inr rfl)

/-- C9 witness: the theorem applied to a concrete assistant message whose
model annotation names the target provider Anthropic. -/
theorem c9_witness :
    filterMessage Provider.anthropic
        { id := "a1", role := Role.assistant,
          parts := [MsgPart.reasoning none none (some { signature := some "sig", content := some "deep" }),
                    MsgPart.text "ok"],
          annotations := some [Annot.other, Annot.withModel "anthropic:smart"] }
      = { id := "a1", role := Role.assistant,
          parts := [MsgPart.reasoning none none (some { signature := some "sig", content := some "deep" }),
                    MsgPart.text "ok"],
          annotations := some [Annot.other, Annot.withModel "anthropic:smart"] }
    ∧ translateMessage
        { id := "a1", role := Role.assistant,
          parts := [MsgPart.reasoning none none (some { signature := some "sig", content := some "deep" }),
                    MsgPart.text "ok"],
          annotations := some [Annot.other, Annot.withModel "anthropic:smart"] }
        Provider.anthropic
      = { id := "a1", role := Role.assistant,
          parts := [MsgPart.reasoning none none (some { signature := some "sig", content := some "deep" }),
                    MsgPart.text "ok"],
          annotations := some [Annot.other, Annot.withModel "anthropic:smart"] } :=
  c9_theorem
    { id := "a1", role := Role.assistant,
      parts := [MsgPart.reasoning none none (some { signature := some "sig", content := some "deep" }),
                MsgPart.text "ok"],
      annotations := some [Annot.other, Annot.withModel "anthropic:smart"] }
    Provider.anthropic (by decide)

/-- C10 (confirmed): the live filter returns a history of the same length, any
user message — even one containing reasoning parts — is returned completely
unchanged at its position, and every message keeps its id, role and
annotations (only parts are ever filtered). -/
theorem c10_theorem : ∀ (msgs : List UIMessage) (target : Provider),
    (filterIncompatibleReasoning msgs target).length = msgs.length
    ∧ (∀ (i : Nat) (m : UIMessage), msgs[i]? = some m → m.role = Role.user →
        (filterIncompatibleReasoning msgs target)[i]? = some m)
    ∧ (∀ (i : Nat) (m : UIMessage), msgs[i]? = some m →
        ∃ m2, (filterIncompatibleReasoning msgs target)[i]? = some m2
          ∧ m2.id = m.id ∧ m2.role = m.role ∧ m2.annotations = m.annotations) := by
  intro msgs target
  refine ⟨List.length_map _ _, ?_, ?_⟩
  · intro i m hget hrole
    unfold filterIncompatibleReasoning
    rw [List.getElem?_map, hget, Option.map_some']
    unfold filterMessage
    rw [if_pos hrole]
  · intro i m hget
    refine ⟨filterMessage target m, ?_, ?_, ?_, ?_⟩
    · unfold filterIncompatibleReasoning
      rw [List.getElem?_map, hget, Option.map_some']
    · unfold filterMessage
      split <;> rfl
    · unfold filterMessage
      split <;> rfl
    · unfold filterMessage
      split <;> rfl

/-- C10 witness: the theorem applied to a one-message history whose single
user message itself contains a reasoning part; it passes through verbatim. -/
theorem c10_witness :
    (filterIncompatibleReasoning
        [{ id := "u1", role := Role.user,
           parts := [MsgPart.reasoning (some "secret") none none, MsgPart.text "q"],
           annotations := none }]
        Provider.anthropic).length
      = [({ id := "u1", role := Role.user,
            parts := [MsgPart.reasoning (some "secret") none none, MsgPart.text "q"],
            annotations := none } : UIMessage)].length
    ∧ (filterIncompatibleReasoning
        [{ id := "u1", role := Role.user,
           parts := [MsgPart.reasoning (some "secret") none none, MsgPart.text "q"],
           annotations := none }]
        Provider.anthropic)[0]?
      = some { id := "u1", role := Role.user,
               parts := [MsgPart.reasoning (some "secret") none none, MsgPart.text "q"],
               annotations := none } :=
  ⟨(c10_theorem
      [{ id := "u1", role := Role.user,
         parts := [MsgPart.reasoning (some "secret") none none, MsgPart.text "q"],
         annotations := none }] Provider.anthropic).1,
   (c10_theorem
      [{ id := "u1", role := Role.user,
         parts := [MsgPart.reasoning (some "secret") none none, MsgPart.text "q"],
         annotations := none }] Provider.anthropic).2.1 0
     { id := "u1", role := Role.user,
       parts := [MsgPart.reasoning (some "secret") none none, MsgPart.text "q"],
       annotations := none } rfl rfl⟩
